import Mathlib

/-!
# A shallow embedding of the `validate_base` core

This file embeds the data model and operations of the `lsst.validate.base`
Python package (files `naming.py`, `blob.py`, `metric.py`, `measurement.py`)
as executable Lean definitions, and proves properties of them.

Python strings are modelled as `List Char` (`Str`), `None`-able slots as
`Option`, raised exceptions as `Except Err`, and `dict`s as insertion-ordered
association lists.  Delegations to external libraries (astropy units, uuid4
generation, file I/O) are modelled as explicit parameters: the unit
equivalence oracle is passed in as a boolean relation, and freshly minted
uuid4 identifiers are passed in as explicit `fresh` arguments.
-/

deriving instance DecidableEq for Except

namespace ValidateBase

/-- Python strings, modelled as lists of characters. -/
abbrev Str := List Char

/-- Convenience: build a `Str` from a Lean string literal. -/
def lit (s : String) : Str := s.toList

/-- Exceptions raised by the embedded code.  Python raises builtin exception
classes with distinguishing messages; each constructor here records one
distinct raise site / message family of the source. -/
inductive Err
  /-- `TypeError('Cannot parse ...')`: a `ValueError` from one of the
  `_parse_*` helpers, re-raised as `TypeError` in `Name.__init__`. -/
  | parseError
  /-- `TypeError('metric=... argument does not include metric information.')` -/
  | noMetricInfo
  /-- `TypeError('spec=... argument does not include specification information')` -/
  | noSpecInfo
  /-- `TypeError('You provided a conflicting ...')` from the
  `_init_new_*_info` helpers (the spec's `NameConflict`). -/
  | nameConflict
  /-- `TypeError("Missing 'metric' given package=... spec=...")` -/
  | metricGap
  /-- `KeyError` -/
  | keyError
  /-- `TypeError` (other raise sites) -/
  | typeError
  /-- `astropy.units.UnitTypeError` (the spec's `UnitMismatch`) -/
  | unitTypeError
  /-- `NotImplementedError('Cannot autoload validate_metrics yet')` -/
  | notImplemented
deriving DecidableEq, Repr

/-! ## `naming.py`: the `Name` class -/

/-- `Name`: semantic name of a package, metric or specification, with three
optional string components (`naming.py`, `self._package`, `self._metric`,
`self._spec`). -/
structure Name where
  package : Option Str
  metric : Option Str
  spec : Option Str
deriving DecidableEq, Repr

/-- `Name._parse_fqn_string` (`naming.py` 147-164): split on `'.'`;
1 part → package; 2 → package+metric; 3 → package+metric+spec;
otherwise `ValueError`. -/
def Name.parse_fqn_string (fqn : Str) : Except Err (Option Str × Option Str × Option Str) :=
  match fqn.splitOn '.' with
  | [p] => .ok (some p, none, none)
  | [p, m] => .ok (some p, some m, none)
  | [p, m, s] => .ok (some p, some m, some s)
  | _ => .error .parseError

/-- `Name._parse_metric_name_string` (`naming.py` 166-179): 2 parts →
package+metric; 1 part → bare metric; otherwise `ValueError`. -/
def Name.parse_metric_name_string (name : Str) : Except Err (Option Str × Option Str) :=
  match name.splitOn '.' with
  | [p, m] => .ok (some p, some m)
  | [m] => .ok (none, some m)
  | _ => .error .parseError

/-- `Name._parse_spec_name_string` (`naming.py` 181-197): 1 part → bare spec;
2 → metric+spec; 3 → package+metric+spec; otherwise `ValueError`. -/
def Name.parse_spec_name_string (name : Str) : Except Err (Option Str × Option Str × Option Str) :=
  match name.splitOn '.' with
  | [s] => .ok (none, none, some s)
  | [m, s] => .ok (none, some m, some s)
  | [p, m, s] => .ok (some p, some m, some s)
  | _ => .error .parseError

/-- The common body of `Name._init_new_package_info` /
`_init_new_metric_info` / `_init_new_spec_info` (`naming.py` 117-145):
merge one new component value into the current one, raising
`TypeError('You provided a conflicting ...')` when both are set and differ. -/
def initNewInfo (cur new : Option Str) : Except Err (Option Str) :=
  match new with
  | none => .ok cur
  | some v =>
    match cur with
    | none => .ok (some v)
    | some c => if v = c then .ok (some c) else .error .nameConflict

/-- An argument to `Name.__init__`: a raw string or another `Name`. -/
inductive NameArg
  | str (s : Str)
  | name (n : Name)
deriving DecidableEq, Repr

/-- `has_package` property (`naming.py` 247-253). -/
def Name.has_package (n : Name) : Bool := n.package.isSome

/-- `has_metric` property (`naming.py` 265-273). -/
def Name.has_metric (n : Name) : Bool := n.metric.isSome

/-- `has_spec` property (`naming.py` 255-263). -/
def Name.has_spec (n : Name) : Bool := n.spec.isSome

/-- The component triple a `package` argument contributes (`naming.py`
50-62): a `Name` argument has its three fields copied; a string is parsed by
`_parse_fqn_string`; an absent argument contributes nothing. -/
def packageArgComponents : Option NameArg → Except Err (Option Str × Option Str × Option Str)
  | none => .ok (none, none, none)
  | some (.name n) => .ok (n.package, n.metric, n.spec)
  | some (.str s) => Name.parse_fqn_string s

/-- The component triple a `metric` argument contributes (`naming.py`
64-80): a `Name` argument must carry metric information, else
`TypeError`; a string is parsed by `_parse_metric_name_string` and
contributes no spec (`_spec = None`, line 77). -/
def metricArgComponents : Option NameArg → Except Err (Option Str × Option Str × Option Str)
  | none => .ok (none, none, none)
  | some (.name n) =>
    if n.has_metric = false then .error .noMetricInfo
    else .ok (n.package, n.metric, n.spec)
  | some (.str s) =>
    match Name.parse_metric_name_string s with
    | .ok (p, m) => .ok (p, m, none)
    | .error e => .error e

/-- The component triple a `spec` argument contributes (`naming.py`
87-102): a `Name` argument must carry specification information, else
`TypeError`; a string is parsed by `_parse_spec_name_string`. -/
def specArgComponents : Option NameArg → Except Err (Option Str × Option Str × Option Str)
  | none => .ok (none, none, none)
  | some (.name n) =>
    if n.has_spec = false then .error .noSpecInfo
    else .ok (n.package, n.metric, n.spec)
  | some (.str s) => Name.parse_spec_name_string s

/-- The three consecutive `_init_new_*_info` calls of `Name.__init__`
(`naming.py` 82-85 and 104-107): merge a contributed component triple into
the current state, component by component, in package-metric-spec order. -/
def mergeComponents (st : Name) (c : Option Str × Option Str × Option Str) :
    Except Err Name := do
  let p ← initNewInfo st.package c.1
  let m ← initNewInfo st.metric c.2.1
  let s ← initNewInfo st.spec c.2.2
  Except.ok (⟨p, m, s⟩ : Name)

/-- The body of `Name.__init__` (`naming.py` 45-107) up to but excluding the
final metric-gap check: the `package` argument's components are assigned
directly onto the fresh all-`None` state (lines 50-62, no merge), then the
`metric` and `spec` arguments' components are merged in via the
`_init_new_*_info` checks.  (An absent argument contributes the empty
triple, and merging the empty triple is the identity, which matches the
skipped `if` branch of the source.) -/
def Name.init_merge (package metric spec : Option NameArg) : Except Err Name := do
  let cp ← packageArgComponents package
  let st1 : Name := ⟨cp.1, cp.2.1, cp.2.2⟩
  let cm ← metricArgComponents metric
  let st2 ← mergeComponents st1 cm
  let cs ← specArgComponents spec
  let st3 ← mergeComponents st2 cs
  Except.ok st3

/-- `Name.__init__` (`naming.py` 45-115): the merge above followed by the
final metric-gap check (`naming.py` 109-115). -/
def Name.new (package metric spec : Option NameArg) : Except Err Name := do
  let st ← Name.init_merge package metric spec
  if st.package.isSome && st.spec.isSome && !st.metric.isSome then
    Except.error Err.metricGap
  else
    Except.ok st

/-- `is_spec` property (`naming.py` 305-313). -/
def Name.is_spec (n : Name) : Bool := n.has_spec

/-- `is_metric` property (`naming.py` 295-303). -/
def Name.is_metric (n : Name) : Bool := n.has_metric && !n.has_spec

/-- `is_package` property (`naming.py` 285-293). -/
def Name.is_package (n : Name) : Bool := n.has_package && !n.is_metric && !n.is_spec

/-- `is_fq` property (`naming.py` 315-337). -/
def Name.is_fq (n : Name) : Bool :=
  if n.is_package then true
  else if n.is_metric && n.has_package then true
  else if n.is_spec && n.has_package && n.has_metric then true
  else false

/-- `is_relative` property (`naming.py` 339-354). -/
def Name.is_relative (n : Name) : Bool :=
  n.is_spec && n.has_metric && !n.has_package

/-- `has_relative` property (`naming.py` 275-283). -/
def Name.has_relative (n : Name) : Bool := n.is_spec && n.has_metric

/-- `Name.__eq__` (`naming.py` 214-217): structural equality of the triple. -/
def Name.eq (a b : Name) : Bool :=
  a.package == b.package && a.metric == b.metric && a.spec == b.spec

/-- `Name.__contains__` (`naming.py` 222-245), `Name.contains self other`
is Python `other in self`. -/
def Name.contains (self other : Name) : Bool :=
  if self.is_package then
    -- package branch: false for bare packages, else compare packages
    if other.is_package then false
    else self.package == other.package
  else if self.is_metric then
    -- metric branch
    if other.is_metric then false
    else
      (if self.has_package || other.has_package
       then self.package == other.package
       else true)
      && (self.metric == other.metric)
  else
    -- a specification (or empty name) contains nothing
    false

/-- How Python's `str.format` renders an optional component: the string
itself, or `'None'` for `None` (only reachable in degenerate branches). -/
def optRender (o : Option Str) : Str := o.getD (lit "None")

/-- `Name.__str__` (`naming.py` 375-389): minimal rendering by kind and
qualification. -/
def Name.str (n : Name) : Str :=
  if n.is_package then optRender n.package
  else if n.is_metric && !n.is_fq then optRender n.metric
  else if n.is_metric && n.is_fq then
    optRender n.package ++ '.' :: optRender n.metric
  else if n.is_spec && !n.is_fq && !n.is_relative then optRender n.spec
  else if n.is_spec && !n.is_fq && n.is_relative then
    optRender n.metric ++ '.' :: optRender n.spec
  else
    optRender n.package ++ '.' :: optRender n.metric ++ '.' :: optRender n.spec

/-! ## Dictionaries

Python `dict`s are modelled as insertion-ordered association lists:
assignment overwrites an existing entry in place, otherwise appends. -/

/-- Python `d[k] = v` on an insertion-ordered dict. -/
def updateAssoc {α β : Type} [DecidableEq α] (l : List (α × β)) (k : α) (v : β) :
    List (α × β) :=
  if l.any (fun kv => decide (kv.1 = k)) then
    l.map (fun kv => if kv.1 = k then (k, v) else kv)
  else l ++ [(k, v)]

/-- Python `d[k]` on a dict, `none` for a miss. -/
def lookupAssoc {α β : Type} [DecidableEq α] (l : List (α × β)) (k : α) : Option β :=
  (l.find? (fun kv => decide (kv.1 = k))).map Prod.snd

/-! ## `datum.py`: the `Datum` leaf (externally supplied source)

`datum.py` is not among the sources provided; only its JSON round trip is
relevant here. -/

/-- Modelled from the spec: a serialized `Datum` record (§6: "Datum JSON:
`{value, unit?, label?, description?}` ... out of core scope beyond 'Datum
round-trips via `from_json`/`json`'"), kept opaque. -/
structure DatumJson where
  raw : Str
deriving DecidableEq, Repr

/-- Modelled from the spec: a `Datum` (`datum.py` is missing from the
sources); §3 says it is immutable and "round-trips through JSON losslessly",
so it is modelled as carrying its JSON record. -/
structure Datum where
  json : DatumJson
deriving DecidableEq, Repr

/-- Modelled from the spec: `Datum.from_json`, the lossless round trip. -/
def Datum.from_json (j : DatumJson) : Datum := ⟨j⟩

/-! ## `blob.py`: the `Blob` class -/

/-- A dynamically typed Python value, as far as the `isinstance` checks in
`Blob.__setitem__` observe it. -/
inductive PyVal
  /-- a `basestring` -/
  | str (s : Str)
  /-- a `Datum` instance -/
  | datum (d : Datum)
  /-- some other object (an integer, say) -/
  | int (n : Int)
  /-- Python `None` -/
  | pyNone
deriving DecidableEq, Repr

/-- `Blob` (`blob.py` 15-120): an identifier (`self._id`), a name and an
insertion-ordered mapping of string keys to Datums (`self._datums`). -/
structure Blob where
  id : Str
  name : Str
  datums : List (Str × Datum)
deriving DecidableEq, Repr

/-- `Blob.__setitem__` (`blob.py` 89-98): a non-string key raises
`KeyError('Key ... is not a string.')`; then a non-`Datum` value raises
`TypeError('... is not a Datum-type')`; only when both checks pass is the
entry stored. -/
def Blob.setitem (b : Blob) (key value : PyVal) : Except Err Blob :=
  match key with
  | .str k =>
    match value with
    | .datum d => .ok { b with datums := updateAssoc b.datums k d }
    | _ => .error .typeError
  | _ => .error .keyError

/-- `Blob.__init__` (`blob.py` 33-46): mint a uuid4 identifier (randomness
externalized: the fresh identifier is the explicit `fresh` argument), check
the name is a string (guaranteed by type here), and insert each keyword
datum via `__setitem__` (keyword keys are identifiers, hence strings, and
the values are `Datum`-typed, so every insertion's checks pass). -/
def Blob.new (fresh : Str) (name : Str) (datums : List (Str × Datum)) : Blob :=
  { id := fresh, name := name,
    datums := datums.foldl (fun acc kv => updateAssoc acc kv.1 kv.2) [] }

/-- A serialized Blob record (spec §6: `{identifier, name, data}`). -/
structure BlobJson where
  identifier : Str
  name : Str
  data : List (Str × DatumJson)
deriving DecidableEq, Repr

/-- `Blob.json` property (`blob.py` 80-87). -/
def Blob.json (b : Blob) : BlobJson :=
  ⟨b.id, b.name, b.datums.map (fun kv => (kv.1, kv.2.json))⟩

/-- `Blob.from_json` (`blob.py` 58-78): rebuild the Datums, construct the
Blob (minting a fresh uuid4, the `fresh` argument), then overwrite `_id`
with the identifier taken from the JSON record. -/
def Blob.from_json (fresh : Str) (j : BlobJson) : Blob :=
  let datums := j.data.map (fun kv => (kv.1, Datum.from_json kv.2))
  let inst := Blob.new fresh j.name datums
  { inst with id := j.identifier }

/-- `Blob.__eq__` (`blob.py` 116-117): `other.identifier == self.identifier`. -/
def Blob.eq (self other : Blob) : Bool := other.id == self.id

/-- `Blob.__hash__` (`blob.py` 119-120): `hash(self.identifier)` — the hash
input is exactly the identifier; the external string hash is left as the
identity here. -/
def Blob.hashKey (b : Blob) : Str := b.id

/-! ## `metric.py`: `Metric` and `MetricSet` -/

/-- An astropy unit, kept opaque: the core never inspects one beyond the
external equivalence oracle. `UnitT.mk s` stands for
`astropy.units.Unit(s)`. -/
structure UnitT where
  tag : Str
deriving DecidableEq, Repr

/-- An astropy Quantity: a numeric value carrying a unit. -/
structure Quantity where
  value : Int
  unit : UnitT
deriving DecidableEq, Repr

/-- A `reference` sub-record `{doc, page, url}` of a metric definition. -/
structure Reference where
  doc : Option Str
  page : Option Int
  url : Option Str
deriving DecidableEq, Repr

/-- `Metric` (`metric.py` 155-372). -/
structure Metric where
  name : Name
  description : Str
  unit : UnitT
  tags : List Str
  reference_doc : Option Str
  reference_url : Option Str
  reference_page : Option Int
deriving DecidableEq, Repr

/-- `Metric.__init__` (`metric.py` 203-214). The `name` argument goes
through the `name` setter (`metric.py` 287-289), `self._name =
Name(metric=value)`, which raises for an argument without metric
information; `tags=None` defaults to the empty list; the `unit` string is
parsed by the external `astropy.units.Unit`, modelled as `UnitT.mk`. -/
def Metric.new (name : NameArg) (description : Str) (unit : Str)
    (tags : Option (List Str)) (reference_doc : Option Str)
    (reference_url : Option Str) (reference_page : Option Int) :
    Except Err Metric := do
  let nm ← Name.new none (some name) none
  Except.ok { name := nm, description := description, unit := ⟨unit⟩,
              tags := tags.getD [], reference_doc := reference_doc,
              reference_url := reference_url, reference_page := reference_page }

/-- Python `str.rstrip('\n')`. -/
def rstripNewline (s : Str) : Str := (s.reverse.dropWhile (fun c => c == '\n')).reverse

/-- `Metric.deserialize` (`metric.py` 216-246): builds the `__init__`
keyword arguments — only `unit`, the newline-stripped `description` and
(when a `reference` record is present) the three reference fields are passed
on.  The `tags` parameter is accepted but never added to `args`, so the
constructed Metric always gets the default empty tag list. -/
def Metric.deserialize (name : NameArg) (description : Str) (unit : Str)
    (tags : Option (List Str)) (reference : Option Reference) : Except Err Metric :=
  let _ := tags
  match reference with
  | none => Metric.new name (rstripNewline description) unit none none none none
  | some r => Metric.new name (rstripNewline description) unit none r.doc r.url r.page

/-- A serialized Metric record (spec §6: `{name, description, unit,
reference}`). -/
structure MetricJson where
  name : Str
  description : Str
  unit : Str
  reference : Option Reference
deriving DecidableEq, Repr

/-- `Metric.from_json` (`metric.py` 248-262): `cls.deserialize(**json_data)`
(the record has no `tags` field, so `tags` keeps its `None` default). -/
def Metric.from_json (j : MetricJson) : Except Err Metric :=
  Metric.deserialize (.str j.name) j.description j.unit none j.reference

/-- `Metric.check_unit` (`metric.py` 354-372): delegates to the external
`quantity.unit.is_equivalent(self.unit)` oracle, passed in as `equiv`. -/
def Metric.check_unit (equiv : UnitT → UnitT → Bool) (m : Metric) (q : Quantity) : Bool :=
  if !(equiv q.unit m.unit) then false else true

/-- `MetricSet` (`metric.py` 20-152): the internal `Name`-keyed dict
`self._metrics`. -/
structure MetricSet where
  metrics : List (Name × Metric)
deriving DecidableEq, Repr

/-- `MetricSet.__init__` (`metric.py` 29-39): key each metric by its name
(every element is `Metric`-typed here, so the isinstance check passes). -/
def MetricSet.new (metrics : List Metric) : MetricSet :=
  ⟨metrics.foldl (fun acc m => updateAssoc acc m.name m) []⟩

/-- A key passed to `MetricSet.__getitem__`: a raw string or a `Name`. -/
inductive MKey
  | str (s : Str)
  | name (n : Name)
deriving DecidableEq, Repr

/-- `MetricSet.__getitem__` (`metric.py` 141-144): coerce a non-`Name` key
with `Name(metric=key)`, then look up by `Name` equality, raising `KeyError`
on a miss. -/
def MetricSet.getitem (ms : MetricSet) (key : MKey) : Except Err Metric := do
  let nm : Name ←
    match key with
    | .name n => Except.ok n
    | .str s => Name.new none (some (.str s)) none
  match lookupAssoc ms.metrics nm with
  | some m => Except.ok m
  | none => Except.error Err.keyError

/-- One record of a metric definition file (spec §6: values are records
`{description, unit, tags?, reference?}`; "keys = metric name (string, no
dots)").  The records carry no `name` field, so the
`metric_doc.pop('name', None)` of `_load_metrics_yaml` is a no-op here. -/
structure MetricDoc where
  description : Str
  unit : Str
  tags : Option (List Str)
  reference : Option Reference
deriving DecidableEq, Repr

/-- `MetricSet._load_metrics_yaml` (`metric.py` 123-139), with the file I/O
and YAML parsing (external collaborators) replaced by the inferred package
name `pkg` (the file's base name) and the parsed ordered mapping `doc`:
each record key `k` becomes `Name(package=pkg, metric=k)` and a `Metric`
built by `Metric.deserialize`. -/
def loadMetricsYaml (pkg : Str) : List (Str × MetricDoc) → Except Err (List Metric)
  | [] => .ok []
  | kv :: rest => do
    let name ← Name.new (some (.str pkg)) (some (.str kv.1)) none
    let metric ← Metric.deserialize (.name name) kv.2.description kv.2.unit
      kv.2.tags kv.2.reference
    let metrics ← loadMetricsYaml pkg rest
    Except.ok (metric :: metrics)

/-- `MetricSet.load_single_package` (`metric.py` 97-121), file discovery
externalized as in `loadMetricsYaml`. -/
def MetricSet.load_single_package (pkg : Str) (doc : List (Str × MetricDoc)) :
    Except Err MetricSet := do
  let metrics ← loadMetricsYaml pkg doc
  Except.ok (MetricSet.new metrics)

/-! ## `measurement.py`: `Measurement` -/

/-- `Measurement` (`measurement.py` 62-333): the looked-up metric
(`self._metric`), the measured value (`self.value`) and the uuid4 identifier
(`self._id`). -/
structure Measurement where
  metric : Metric
  value : Quantity
  id : Str
deriving DecidableEq, Repr

/-- `Measurement.__init__` (`measurement.py` 87-116): look the metric up in
the supplied `MetricSet` (raising `NotImplementedError` when none is
supplied), check unit convertibility (raising
`astropy.units.UnitTypeError` when it fails), store the value unchanged,
and mint a uuid4 identifier (the `fresh` argument). -/
def Measurement.new (equiv : UnitT → UnitT → Bool) (fresh : Str)
    (name : MKey) (value : Quantity) (metric_set : Option MetricSet) :
    Except Err Measurement := do
  let metric ←
    match metric_set with
    | some ms => ms.getitem name
    | none => Except.error Err.notImplemented
  if !(metric.check_unit equiv value) then
    Except.error Err.unitTypeError
  else
    Except.ok { metric := metric, value := value, id := fresh }

/-- A serialized Measurement record (`measurement.py` 248-265 and spec §4.4;
the `spec_name` and `filter_name` fields are not read by `from_json` and are
omitted). -/
structure MeasurementJson where
  metric : MetricJson
  identifier : Str
  value : Int
  unit : Str
  parameters : List (Str × DatumJson)
  extras : List (Str × DatumJson)
  blobs : List (Str × Str)
deriving DecidableEq, Repr

/-- The blob-resolution loop of `Measurement.from_json` (`measurement.py`
291-297): when a blob list is supplied, for each `(key, id_)` reference scan
every supplied blob record and bind a freshly deserialized Blob under the
key on an identifier match (the inner loop has no `break`, so a later
matching record overwrites an earlier one); when no list is supplied the
links stay empty.  The loop's `DeserializedBlob.from_json` cannot be
resolved from `blob.py` (see `Measurement.from_json` below); the
deserialization itself is modelled by `Blob.from_json`, whose minted fresh
identifier is immediately overwritten by the record's own. -/
def resolveLinkedBlobs (refs : List (Str × Str))
    (blobs_json : Option (List BlobJson)) : List (Str × Blob) :=
  match blobs_json with
  | none => []
  | some docs =>
    refs.foldl (fun acc kv =>
      docs.foldl (fun acc2 doc =>
        if doc.identifier = kv.2 then updateAssoc acc2 kv.1 (Blob.from_json [] doc)
        else acc2) acc) []

/-- The parameter names of `Measurement.__init__` (`measurement.py` 87). -/
def measurementInitParams : List Str := [lit "name", lit "value", lit "metric_set"]

/-- The keyword-argument names `Measurement.from_json` passes to `cls(...)`
(`measurement.py` 299-304). -/
def fromJsonKwargs : List Str :=
  [lit "quantity", lit "id_", lit "metric", lit "parameters",
   lit "linked_blobs", lit "extras"]

/-- `Measurement.from_json` (`measurement.py` 267-305).  The body rebuilds
the quantity, the parameter/extra Datum mappings and the linked blobs, then
evaluates `cls(quantity=q, id_=..., metric=..., parameters=...,
linked_blobs=..., extras=...)`.  `Measurement.__init__` is
`(self, name, value, metric_set=None)`, so Python's keyword binding raises
`TypeError` at the first unexpected keyword (`quantity`); were every
keyword accepted, the call would still raise `TypeError` for the missing
required arguments `name` and `value` (no keyword is named `name` or
`value`).  Independently, the module-level `from .blob import
DeserializedBlob` cannot be satisfied by `blob.py`, which defines only
`Blob`.  The quantity rebuild `_rebuild_quantity` lives in the
`QuantityAttributeMixin` of the absent `datum.py`; modelled from the spec
(§4.4 phase 1): reconstruct the quantity from `(value, unit)`. -/
def Measurement.from_json (j : MeasurementJson)
    (blobs_json : Option (List BlobJson)) : Except Err Measurement :=
  let _q : Quantity := ⟨j.value, ⟨j.unit⟩⟩
  let _parameters := j.parameters.map (fun kv => (kv.1, Datum.from_json kv.2))
  let _extras := j.extras.map (fun kv => (kv.1, Datum.from_json kv.2))
  let _linked_blobs := resolveLinkedBlobs j.blobs blobs_json
  match fromJsonKwargs.find? (fun k => !(measurementInitParams.contains k)) with
  | some _ => .error .typeError
  | none => .error .typeError

/-! ## Auxiliary notions for the statements -/

/-- Two optional component values agree: they are not two different set
values. -/
def optAgrees (a b : Option Str) : Bool :=
  match a, b with
  | some x, some y => x = y
  | _, _ => true

/-- Pointwise agreement of two contributed component triples. -/
def agree3 (c d : Option Str × Option Str × Option Str) : Bool :=
  optAgrees c.1 d.1 && optAgrees c.2.1 d.2.1 && optAgrees c.2.2 d.2.2

/-- Two contributed component triples overlap when some component is set in
both. -/
def overlaps (c d : Option Str × Option Str × Option Str) : Bool :=
  (c.1.isSome && d.1.isSome) || (c.2.1.isSome && d.2.1.isSome) ||
    (c.2.2.isSome && d.2.2.isSome)

/-- The structural invariant enforced by `Name.__init__`'s final check:
package and spec set with metric unset never occurs in a constructed
`Name`. -/
def Name.wellFormed (n : Name) : Bool :=
  !(n.package.isSome && !n.metric.isSome && n.spec.isSome)

/-- A constructor argument is well formed when a `Name` passed in could
itself have come out of the constructor (satisfies the structural
invariant); strings and absent arguments always are. -/
def argWellFormed : Option NameArg → Bool
  | some (.name n) => n.wellFormed
  | _ => true

/-! ## Concrete fixtures used by witnesses -/

/-- A package-qualified metric name used in concrete witnesses. -/
def exName : Name := ⟨some (lit "p"), some (lit "m"), none⟩

/-- A metric fixture used in concrete witnesses. -/
def exMetric : Metric :=
  { name := exName, description := lit "d", unit := ⟨lit "mag"⟩, tags := [],
    reference_doc := none, reference_url := none, reference_page := none }

/-- A MetricSet fixture containing exactly `exMetric`. -/
def exMetricSet : MetricSet := ⟨[(exName, exMetric)]⟩

/-- A quantity fixture. -/
def exQuantity : Quantity := ⟨5, ⟨lit "mag"⟩⟩

/-- The metric `_load_metrics_yaml` builds for record `(k, d)` of a file
with package name `pkg` (assuming both names parse): its name is
`Name(package=pkg, metric=k)`, its description is newline-stripped, its
tags default to empty (dropped by `deserialize`), and the reference fields
come from the optional `reference` record. -/
def mkLoadedMetric (pkg : Str) (kv : Str × MetricDoc) : Metric :=
  { name := ⟨some pkg, some kv.1, none⟩,
    description := rstripNewline kv.2.description,
    unit := ⟨kv.2.unit⟩, tags := [],
    reference_doc := kv.2.reference.bind Reference.doc,
    reference_url := kv.2.reference.bind Reference.url,
    reference_page := kv.2.reference.bind Reference.page }

/-- A one-record definition-file fixture: metric key `m`. -/
def exDoc : List (Str × MetricDoc) := [(lit "m", ⟨lit "d", lit "mag", none, none⟩)]

/-- The MetricSet that loading `exDoc` under package name `p` produces. -/
def exLoadedMS : MetricSet :=
  ⟨[(⟨some (lit "p"), some (lit "m"), none⟩,
     ⟨⟨some (lit "p"), some (lit "m"), none⟩, lit "d", ⟨lit "mag"⟩, [],
      none, none, none⟩)]⟩

end ValidateBase

namespace ValidateBase

/-! ## Theorems -/

/-- Reduction of a successful `Except` bind. -/
theorem except_bind_ok {ε α β : Type} (a : α) (f : α → Except ε β) :
    (Except.ok a >>= f : Except ε β) = f a := rfl

/-- Reduction of a failing `Except` bind. -/
theorem except_bind_error {ε α β : Type} (e : ε) (f : α → Except ε β) :
    ((Except.error e : Except ε α) >>= f) = Except.error e := rfl

/-- **C1** (code defect).  `Measurement.from_json` completes on no input at
all: its final `cls(quantity=..., id_=..., metric=..., parameters=...,
linked_blobs=..., extras=...)` call binds keyword arguments that
`Measurement.__init__(self, name, value, metric_set=None)` does not accept,
so Python raises `TypeError` instead of returning a measurement — evaluated
here on a concrete measurement record referencing blob `b1`, once with the
matching blob list supplied and once with it absent. -/
theorem measurement_from_json_fatal :
    Measurement.from_json
      ⟨⟨lit "p.m", lit "d", lit "mag", none⟩, lit "meas1", 5, lit "mag", [], [],
        [(lit "k", lit "b1")]⟩
      (some [⟨lit "b1", lit "blobname", [(lit "dk", ⟨lit "dv"⟩)]⟩]) =
      .error .typeError ∧
    Measurement.from_json
      ⟨⟨lit "p.m", lit "d", lit "mag", none⟩, lit "meas1", 5, lit "mag", [], [],
        [(lit "k", lit "b1")]⟩ none = .error .typeError := by
  decide

/-- **C2.**  Given a `MetricSet` in which the lookup of `name` succeeds,
`Measurement.__init__` raises the unit-mismatch error
(`astropy.units.UnitTypeError`, the spec's `UnitMismatch`) exactly when
`metric.check_unit(value)` is false; when the unit is convertible the
construction succeeds and stores the original quantity unchanged. -/
theorem measurement_init_unit_check (equiv : UnitT → UnitT → Bool) (fresh : Str)
    (name : MKey) (value : Quantity) (ms : MetricSet) (metric : Metric)
    (h : ms.getitem name = .ok metric) :
    (Measurement.new equiv fresh name value (some ms) = .error .unitTypeError ↔
      metric.check_unit equiv value = false) ∧
    (metric.check_unit equiv value = true →
      Measurement.new equiv fresh name value (some ms) =
        .ok { metric := metric, value := value, id := fresh }) := by
  cases hcu : metric.check_unit equiv value <;>
    simp [Measurement.new, h, hcu, except_bind_ok]

/-- Witness for C2: a concrete construction that succeeds under an
all-equivalent unit oracle and raises under an all-inequivalent one. -/
theorem measurement_init_unit_check_witness :
    Measurement.new (fun _ _ => true) (lit "id0") (.name exName) exQuantity
      (some exMetricSet) = .ok ⟨exMetric, exQuantity, lit "id0"⟩ ∧
    Measurement.new (fun _ _ => false) (lit "id0") (.name exName) exQuantity
      (some exMetricSet) = .error .unitTypeError :=
  ⟨(measurement_init_unit_check _ _ _ _ _ exMetric (by decide)).2 (by decide),
   (measurement_init_unit_check _ _ _ _ _ exMetric (by decide)).1.mpr (by decide)⟩

/-- **C3.**  Deserializing a Blob from its own JSON reproduces the
identifier character for character (it is taken from the record,
overwriting the freshly minted one), so the round trip is `==`-equal to the
original; two separately constructed Blobs (distinct minted uuid4s) with
identical name and data have different identifiers and are unequal; and
Blob `==` is determined solely by the identifier, independent of the
contained data. -/
theorem blob_identity_roundtrip :
    (∀ (fresh : Str) (b : Blob),
      (Blob.from_json fresh b.json).id = b.id ∧
      Blob.eq (Blob.from_json fresh b.json) b = true) ∧
    (∀ (f1 f2 name : Str) (datums : List (Str × Datum)), f1 ≠ f2 →
      (Blob.new f1 name datums).id ≠ (Blob.new f2 name datums).id ∧
      Blob.eq (Blob.new f1 name datums) (Blob.new f2 name datums) = false) ∧
    (∀ b1 b2 : Blob, Blob.eq b1 b2 = true ↔ b2.id = b1.id) := by
  refine ⟨fun fresh b => ⟨rfl, ?_⟩, fun f1 f2 name datums h => ⟨h, ?_⟩,
    fun b1 b2 => ?_⟩
  · simp [Blob.eq, Blob.from_json, Blob.json, Blob.new]
  · simp [Blob.eq, Blob.new]
    exact fun hc => absurd hc.symm h
  · simp [Blob.eq]

/-- Witness for C3 at concrete blobs. -/
theorem blob_identity_roundtrip_witness :
    Blob.eq (Blob.from_json (lit "f2") (Blob.new (lit "f1") (lit "demo") []).json)
      (Blob.new (lit "f1") (lit "demo") []) = true ∧
    Blob.eq (Blob.new (lit "f1") (lit "demo") [])
      (Blob.new (lit "f2") (lit "demo") []) = false :=
  ⟨(blob_identity_roundtrip.1 (lit "f2") _).2,
   (blob_identity_roundtrip.2.1 (lit "f1") (lit "f2") (lit "demo") [] (by decide)).2⟩

/-- **C4.**  If processing the constructor arguments leaves package and spec
present with metric absent, `Name.__init__` raises the structural
metric-gap `TypeError`; and no `Name` the constructor ever returns has that
gap. -/
theorem name_metric_gap_rejected (package metric spec : Option NameArg) :
    (∀ st, Name.init_merge package metric spec = .ok st →
      st.package.isSome = true → st.spec.isSome = true → st.metric = none →
      Name.new package metric spec = .error .metricGap) ∧
    (∀ n, Name.new package metric spec = .ok n →
      ¬(n.package.isSome = true ∧ n.spec.isSome = true ∧ n.metric = none)) := by
  constructor
  · intro st h hp hs hm
    simp [Name.new, h, hp, hs, hm, except_bind_ok]
  · intro n h hbad
    obtain ⟨hp, hs, hm⟩ := hbad
    cases him : Name.init_merge package metric spec with
    | error e => simp [Name.new, him, except_bind_error] at h
    | ok st =>
      rw [Name.new, him, except_bind_ok] at h
      split at h
      · cases h
      · rename_i hcond
        cases h
        simp [hp, hs, hm] at hcond

/-- Witness for C4: `Name(package='a', spec='c')` is rejected with the
metric-gap error, and the constructed `Name('a.b.c')` has no gap. -/
theorem name_metric_gap_rejected_witness :
    Name.new (some (.str (lit "a"))) none (some (.str (lit "c"))) =
      .error .metricGap ∧
    ¬((Name.package ⟨some (lit "a"), some (lit "b"), some (lit "c")⟩).isSome = true ∧
      (Name.spec ⟨some (lit "a"), some (lit "b"), some (lit "c")⟩).isSome = true ∧
      Name.metric ⟨some (lit "a"), some (lit "b"), some (lit "c")⟩ = none) :=
  ⟨(name_metric_gap_rejected (some (.str (lit "a"))) none (some (.str (lit "c")))).1
      ⟨some (lit "a"), none, some (lit "c")⟩ (by decide) (by decide) (by decide) rfl,
   (name_metric_gap_rejected (some (.str (lit "a.b.c"))) none none).2
      ⟨some (lit "a"), some (lit "b"), some (lit "c")⟩ (by decide)⟩

/-- **C6.**  Every successfully constructed `Name` with at least one
component present satisfies exactly one of `is_package` / `is_metric` /
`is_spec`; moreover `is_package` holds iff package is set and neither the
metric nor the spec classification applies, `is_metric` iff metric is set
and spec is not, and `is_spec` iff spec is set. -/
theorem name_classification_exclusive (package metric spec : Option NameArg)
    (n : Name) (_hok : Name.new package metric spec = .ok n)
    (hne : n.has_package = true ∨ n.has_metric = true ∨ n.has_spec = true) :
    ((n.is_package = true ∧ n.is_metric = false ∧ n.is_spec = false) ∨
     (n.is_package = false ∧ n.is_metric = true ∧ n.is_spec = false) ∨
     (n.is_package = false ∧ n.is_metric = false ∧ n.is_spec = true)) ∧
    (n.is_package = true ↔
      n.has_package = true ∧ n.is_metric = false ∧ n.is_spec = false) ∧
    (n.is_metric = true ↔ n.has_metric = true ∧ n.has_spec = false) ∧
    (n.is_spec = true ↔ n.has_spec = true) := by
  obtain ⟨p, m, s⟩ := n
  cases p <;> cases m <;> cases s <;>
    simp_all [Name.is_package, Name.is_metric, Name.is_spec, Name.has_package,
      Name.has_metric, Name.has_spec]

/-- Witness for C6: the constructed `Name('a.b')` is classified exactly as
a metric name. -/
theorem name_classification_exclusive_witness :
    ((Name.is_package ⟨some (lit "a"), some (lit "b"), none⟩ = true ∧
      Name.is_metric ⟨some (lit "a"), some (lit "b"), none⟩ = false ∧
      Name.is_spec ⟨some (lit "a"), some (lit "b"), none⟩ = false) ∨
     (Name.is_package ⟨some (lit "a"), some (lit "b"), none⟩ = false ∧
      Name.is_metric ⟨some (lit "a"), some (lit "b"), none⟩ = true ∧
      Name.is_spec ⟨some (lit "a"), some (lit "b"), none⟩ = false) ∨
     (Name.is_package ⟨some (lit "a"), some (lit "b"), none⟩ = false ∧
      Name.is_metric ⟨some (lit "a"), some (lit "b"), none⟩ = false ∧
      Name.is_spec ⟨some (lit "a"), some (lit "b"), none⟩ = true)) :=
  (name_classification_exclusive (some (.str (lit "a.b"))) none none
    ⟨some (lit "a"), some (lit "b"), none⟩ (by decide) (Or.inl (by decide))).1

/-- **C9** counterexample.  Assigning under the non-string key `0` raises
`KeyError` — which is not a `TypeError`-class error (`KeyError` subclasses
`LookupError`) — contradicting the claim that a non-string-like key raises
a `TypeError`-class error. -/
theorem blob_setitem_counterexample :
    Blob.setitem ⟨lit "b0", lit "demo", []⟩ (.int 0) (.datum ⟨⟨lit "v"⟩⟩) =
      .error .keyError ∧ Err.keyError ≠ Err.typeError := by
  decide

/-- **C9 amended.**  `Blob.__setitem__` raises `KeyError` (not a
`TypeError`-class error) whenever the key is not string-like, raises
`TypeError` whenever the key is a string but the value is not a Datum, and
stores the entry exactly when both checks pass — a failing call returns no
updated mapping. -/
theorem blob_setitem_type_checks (b : Blob) (key value : PyVal) :
    ((∀ s, key ≠ .str s) → Blob.setitem b key value = .error .keyError) ∧
    (∀ s, key = .str s → (∀ d, value ≠ .datum d) →
      Blob.setitem b key value = .error .typeError) ∧
    (∀ s d, key = .str s → value = .datum d →
      Blob.setitem b key value = .ok { b with datums := updateAssoc b.datums s d }) ∧
    (∀ b', Blob.setitem b key value = .ok b' →
      ∃ s d, key = .str s ∧ value = .datum d ∧
        b' = { b with datums := updateAssoc b.datums s d }) := by
  cases key <;> cases value <;> simp [Blob.setitem]

/-- Witness for the amended C9: a non-Datum value raises `TypeError`, and a
string key with a Datum value stores the entry. -/
theorem blob_setitem_type_checks_witness :
    Blob.setitem ⟨lit "b0", lit "demo", []⟩ (.str (lit "k")) (.int 3) =
      .error .typeError ∧
    Blob.setitem ⟨lit "b0", lit "demo", []⟩ (.str (lit "k")) (.datum ⟨⟨lit "v"⟩⟩) =
      .ok ⟨lit "b0", lit "demo", [(lit "k", ⟨⟨lit "v"⟩⟩)]⟩ :=
  ⟨(blob_setitem_type_checks ⟨lit "b0", lit "demo", []⟩ (.str (lit "k")) (.int 3)).2.1
      (lit "k") rfl (fun d => by simp),
   (blob_setitem_type_checks ⟨lit "b0", lit "demo", []⟩ (.str (lit "k"))
      (.datum ⟨⟨lit "v"⟩⟩)).2.2.1 (lit "k") ⟨⟨lit "v"⟩⟩ rfl rfl⟩

/-- **C7** counterexample.  Take `A = Name(metric='m')` and
`B = Name('p.m.s')`: `A` is a metric name, `B` is not a metric name, only
one side (`B`) specifies a package, and the metric components agree — so
the claim (package agreement not required when only one side specifies a
package) predicts `B in A`; the code returns `False`, because it compares
the packages whenever *either* side has one (`self.has_package or
name.has_package`, `naming.py` 236). -/
theorem name_contains_counterexample :
    Name.is_metric ⟨none, some (lit "m"), none⟩ = true ∧
    Name.is_metric ⟨some (lit "p"), some (lit "m"), some (lit "s")⟩ = false ∧
    Name.metric ⟨none, some (lit "m"), none⟩ =
      Name.metric ⟨some (lit "p"), some (lit "m"), some (lit "s")⟩ ∧
    Name.has_package ⟨none, some (lit "m"), none⟩ = false ∧
    Name.has_package ⟨some (lit "p"), some (lit "m"), some (lit "s")⟩ = true ∧
    Name.contains ⟨none, some (lit "m"), none⟩
      ⟨some (lit "p"), some (lit "m"), some (lit "s")⟩ = false := by
  decide

/-- **C7 amended.**  Containment as the code computes it: when `A` is a
package name, `B in A` iff `B` is not itself a bare package and the
packages are equal; when `A` is a metric name, `B in A` iff `B` is not
itself a metric name, the packages are equal whenever *either* side
specifies one (so containment fails when only one side has a package), and
the metric components are equal; when `A` is neither (a spec name, or
empty), containment never holds. -/
theorem name_contains_characterization (A B : Name) :
    (A.is_package = true →
      A.contains B = (!B.is_package && A.package == B.package)) ∧
    (A.is_metric = true →
      A.contains B =
        (!B.is_metric &&
          (!(A.has_package || B.has_package) || A.package == B.package) &&
          (A.metric == B.metric))) ∧
    (A.is_package = false → A.is_metric = false → A.contains B = false) := by
  refine ⟨fun hp => ?_, fun hm => ?_, fun hp hm => ?_⟩
  · simp only [Name.contains, hp, if_true]
    cases hb : B.is_package <;> simp [hb]
  · have hp : A.is_package = false := by simp [Name.is_package, hm]
    simp only [Name.contains, hp, hm, if_true, if_false, Bool.false_eq_true]
    cases hb : B.is_metric <;> cases hab : (A.has_package || B.has_package) <;>
      simp [hb, hab]
  · simp [Name.contains, hp, hm]

/-- Witness for the amended C7 at the counterexample's names. -/
theorem name_contains_characterization_witness :
    Name.contains ⟨none, some (lit "m"), none⟩
      ⟨some (lit "p"), some (lit "m"), some (lit "s")⟩ =
    (!(Name.is_metric ⟨some (lit "p"), some (lit "m"), some (lit "s")⟩) &&
      (!(Name.has_package ⟨none, some (lit "m"), none⟩ ||
         Name.has_package ⟨some (lit "p"), some (lit "m"), some (lit "s")⟩) ||
       Name.package ⟨none, some (lit "m"), none⟩ ==
         Name.package ⟨some (lit "p"), some (lit "m"), some (lit "s")⟩) &&
      (Name.metric ⟨none, some (lit "m"), none⟩ ==
        Name.metric ⟨some (lit "p"), some (lit "m"), some (lit "s")⟩)) :=
  (name_contains_characterization ⟨none, some (lit "m"), none⟩
    ⟨some (lit "p"), some (lit "m"), some (lit "s")⟩).2.1 (by decide)

/-- **C8.**  Every dotted string with one to three dot-separated parts,
supplied through the `package` field, constructs successfully and renders
back (`__str__`) to exactly the original string: the minimal form implied
by the parsed kind reassembles the parts with dots in their original
positions. -/
theorem name_str_roundtrip (s : Str)
    (h1 : 1 ≤ (s.splitOn '.').length) (h3 : (s.splitOn '.').length ≤ 3) :
    ∃ n, Name.new (some (.str s)) none none = .ok n ∧ n.str = s := by
  have hs : ['.'].intercalate (s.splitOn '.') = s := List.intercalate_splitOn s '.'
  match hparts : s.splitOn '.' with
  | [] => rw [hparts] at h1; simp at h1
  | [p] =>
    rw [hparts] at hs
    refine ⟨⟨some p, none, none⟩, ?_, ?_⟩
    · simp [Name.new, Name.init_merge, packageArgComponents, Name.parse_fqn_string,
        hparts, metricArgComponents, specArgComponents, mergeComponents, initNewInfo,
        except_bind_ok]
    · simp only [Name.str, Name.is_package, Name.has_package, Name.is_metric,
        Name.is_spec, Name.has_metric, Name.has_spec, optRender]
      simpa [List.intercalate] using hs
  | [p, m] =>
    rw [hparts] at hs
    refine ⟨⟨some p, some m, none⟩, ?_, ?_⟩
    · simp [Name.new, Name.init_merge, packageArgComponents, Name.parse_fqn_string,
        hparts, metricArgComponents, specArgComponents, mergeComponents, initNewInfo,
        except_bind_ok]
    · simp only [Name.str, Name.is_package, Name.has_package, Name.is_metric,
        Name.is_spec, Name.has_metric, Name.has_spec, Name.is_fq, optRender]
      simpa [List.intercalate] using hs
  | [p, m, sp] =>
    rw [hparts] at hs
    refine ⟨⟨some p, some m, some sp⟩, ?_, ?_⟩
    · simp [Name.new, Name.init_merge, packageArgComponents, Name.parse_fqn_string,
        hparts, metricArgComponents, specArgComponents, mergeComponents, initNewInfo,
        except_bind_ok]
    · simp only [Name.str, Name.is_package, Name.has_package, Name.is_metric,
        Name.is_spec, Name.has_metric, Name.has_spec, Name.is_fq, Name.is_relative,
        optRender]
      simpa [List.intercalate] using hs
  | p :: m :: sp :: q :: rest =>
    rw [hparts] at h3
    simp at h3

/-! ### Dictionary helper lemmas -/

/-- A lookup misses when no entry has the key. -/
theorem lookupAssoc_eq_none {α β : Type} [DecidableEq α] (l : List (α × β)) (key : α)
    (h : ∀ kv ∈ l, kv.1 ≠ key) : lookupAssoc l key = none := by
  unfold lookupAssoc
  rw [List.find?_eq_none.mpr]
  · rfl
  · intro kv hkv
    simp [h kv hkv]

/-- Keys of a dict update satisfy any predicate satisfied by the previous
keys and the inserted key. -/
theorem updateAssoc_keys_pred {α β : Type} [DecidableEq α] (P : α → Prop)
    (l : List (α × β)) (k : α) (v : β)
    (hl : ∀ kv ∈ l, P kv.1) (hk : P k) :
    ∀ kv ∈ updateAssoc l k v, P kv.1 := by
  intro kv hkv
  unfold updateAssoc at hkv
  split at hkv
  · obtain ⟨kv', hkv', rfl⟩ := List.mem_map.mp hkv
    by_cases hc : kv'.1 = k
    · simpa [hc] using hk
    · simpa [hc] using hl kv' hkv'
  · rcases List.mem_append.mp hkv with h1 | h1
    · exact hl kv h1
    · rcases List.mem_singleton.mp h1 with rfl
      exact hk

/-- In-place overwrite: searching the overwritten list for the overwritten
key finds the new entry. -/
theorem find?_overwrite_self {α β : Type} [DecidableEq α] (l : List (α × β))
    (k : α) (v : β) (hany : l.any (fun kv => decide (kv.1 = k)) = true) :
    List.find? (fun kv => decide (kv.1 = k))
      (l.map (fun kv => if kv.1 = k then (k, v) else kv)) = some (k, v) := by
  induction l with
  | nil => simp at hany
  | cons h t ih =>
    by_cases hc : h.1 = k
    · simp only [List.map_cons, if_pos hc]
      rw [List.find?_cons_of_pos _ (by simp)]
    · simp only [List.map_cons, if_neg hc]
      rw [List.find?_cons_of_neg _ (by simp [hc])]
      apply ih
      simpa [hc] using hany

/-- In-place overwrite under `k` leaves searches for other keys unchanged. -/
theorem find?_overwrite_ne {α β : Type} [DecidableEq α] (l : List (α × β))
    (k : α) (v : β) (key : α) (hne : key ≠ k) :
    List.find? (fun kv => decide (kv.1 = key))
      (l.map (fun kv => if kv.1 = k then (k, v) else kv)) =
      List.find? (fun kv => decide (kv.1 = key)) l := by
  induction l with
  | nil => rfl
  | cons h t ih =>
    by_cases hc : h.1 = k
    · simp only [List.map_cons, if_pos hc]
      rw [List.find?_cons_of_neg _ (by simp [Ne.symm hne]),
        List.find?_cons_of_neg _ (by simp [hc, Ne.symm hne])]
      exact ih
    · simp only [List.map_cons, if_neg hc]
      by_cases hp : h.1 = key
      · rw [List.find?_cons_of_pos _ (by simp [hp]),
          List.find?_cons_of_pos _ (by simp [hp])]
      · rw [List.find?_cons_of_neg _ (by simp [hp]),
          List.find?_cons_of_neg _ (by simp [hp])]
        exact ih

/-- After an update under `k`, looking `k` up returns the new value. -/
theorem lookupAssoc_updateAssoc_self {α β : Type} [DecidableEq α]
    (l : List (α × β)) (k : α) (v : β) :
    lookupAssoc (updateAssoc l k v) k = some v := by
  unfold updateAssoc
  split
  · rename_i hany
    unfold lookupAssoc
    rw [find?_overwrite_self l k v hany]
    rfl
  · rename_i hany
    unfold lookupAssoc
    rw [List.find?_append, List.find?_eq_none.mpr]
    · simp
    · intro kv hkv
      simp only [decide_eq_true_eq]
      intro hc
      exact hany (List.any_eq_true.mpr ⟨kv, hkv, by simp [hc]⟩)

/-- An update under `k` does not change lookups of other keys. -/
theorem lookupAssoc_updateAssoc_ne {α β : Type} [DecidableEq α]
    (l : List (α × β)) (k : α) (v : β) (key : α) (hne : key ≠ k) :
    lookupAssoc (updateAssoc l k v) key = lookupAssoc l key := by
  unfold updateAssoc
  split
  · unfold lookupAssoc
    rw [find?_overwrite_ne l k v key hne]
  · unfold lookupAssoc
    rw [List.find?_append]
    have h1 : List.find? (fun kv => decide (kv.1 = key)) [(k, v)] = none := by
      simp [Ne.symm hne]
    rw [h1]
    simp

/-- Keys of the dict built by folding `updateAssoc` satisfy any predicate
satisfied by the initial keys and all inserted keys. -/
theorem foldl_updateAssoc_keys_pred {α β γ : Type} [DecidableEq α] (P : α → Prop)
    (f : γ → α) (g : γ → β) (l : List γ) (init : List (α × β))
    (hinit : ∀ kv ∈ init, P kv.1) (hl : ∀ c ∈ l, P (f c)) :
    ∀ kv ∈ l.foldl (fun acc c => updateAssoc acc (f c) (g c)) init, P kv.1 := by
  induction l generalizing init with
  | nil => exact hinit
  | cons c t ih =>
    simp only [List.foldl_cons]
    exact ih (updateAssoc init (f c) (g c))
      (updateAssoc_keys_pred P init (f c) (g c) hinit (hl c (by simp)))
      (fun c' hc' => hl c' (by simp [hc']))

/-- Lookup in the built dict succeeds for any inserted key. -/
theorem foldl_updateAssoc_lookup_isSome {α β γ : Type} [DecidableEq α]
    (f : γ → α) (g : γ → β) (l : List γ) (init : List (α × β)) (target : α)
    (h : (lookupAssoc init target).isSome = true ∨ ∃ c ∈ l, f c = target) :
    (lookupAssoc (l.foldl (fun acc c => updateAssoc acc (f c) (g c)) init)
      target).isSome = true := by
  induction l generalizing init with
  | nil =>
    rcases h with h | ⟨c, hc, _⟩
    · exact h
    · cases hc
  | cons c t ih =>
    simp only [List.foldl_cons]
    apply ih
    by_cases hct : target = f c
    · left
      rw [hct, lookupAssoc_updateAssoc_self]
      rfl
    · rcases h with h | ⟨c', hc', hf⟩
      · left
        rw [lookupAssoc_updateAssoc_ne _ _ _ _ hct]
        exact h
      · rcases List.mem_cons.mp hc' with rfl | hc'
        · exact absurd hf.symm hct
        · right
          exact ⟨c', hc', hf⟩

/-! ### Parsing helper lemmas -/

/-- Splitting a dot-free string yields the one-element list. -/
theorem splitOn_eq_single (s : Str) (h : '.' ∉ s) : s.splitOn '.' = [s] := by
  unfold List.splitOn
  apply List.splitOnP_eq_single
  intro x hx
  simp only [beq_iff_eq]
  exact fun hc => h (hc ▸ hx)

/-- Splitting `p ++ '.' :: k` for dot-free `p` and `k` yields `[p, k]`. -/
theorem splitOn_append_sep (p k : Str) (hp : '.' ∉ p) (hk : '.' ∉ k) :
    (p ++ '.' :: k).splitOn '.' = [p, k] := by
  have h1 : ['.'].intercalate [p, k] = p ++ '.' :: k := by
    simp [List.intercalate, List.intersperse]
  rw [← h1]
  apply List.splitOn_intercalate
  · intro l hl
    rcases List.mem_cons.mp hl with rfl | hl
    · exact hp
    · rcases List.mem_singleton.mp hl with rfl
      exact hk
  · simp

/-- `Name(package=pkg, metric=k)` for dot-free strings. -/
theorem name_new_pkg_metric (pkg k : Str) (hp : '.' ∉ pkg) (hk : '.' ∉ k) :
    Name.new (some (.str pkg)) (some (.str k)) none =
      .ok ⟨some pkg, some k, none⟩ := by
  simp [Name.new, Name.init_merge, packageArgComponents, metricArgComponents,
    specArgComponents, Name.parse_fqn_string, Name.parse_metric_name_string,
    splitOn_eq_single pkg hp, splitOn_eq_single k hk, mergeComponents,
    initNewInfo, except_bind_ok]

/-- `Name(metric=k)` for a dot-free string. -/
theorem name_new_bare_metric (k : Str) (hk : '.' ∉ k) :
    Name.new none (some (.str k)) none = .ok ⟨none, some k, none⟩ := by
  simp [Name.new, Name.init_merge, packageArgComponents, metricArgComponents,
    specArgComponents, Name.parse_metric_name_string, splitOn_eq_single k hk,
    mergeComponents, initNewInfo, except_bind_ok]

/-- `Name(metric='pkg.k')` for dot-free `pkg` and `k`. -/
theorem name_new_dotted_metric (pkg k : Str) (hp : '.' ∉ pkg) (hk : '.' ∉ k) :
    Name.new none (some (.str (pkg ++ '.' :: k))) none =
      .ok ⟨some pkg, some k, none⟩ := by
  simp [Name.new, Name.init_merge, packageArgComponents, metricArgComponents,
    specArgComponents, Name.parse_metric_name_string,
    splitOn_append_sep pkg k hp hk, mergeComponents, initNewInfo, except_bind_ok]

/-- `Metric.deserialize` on the name a definition-file record produces. -/
theorem metric_deserialize_loaded (pkg k : Str) (d : MetricDoc) :
    Metric.deserialize (.name ⟨some pkg, some k, none⟩) d.description d.unit
      d.tags d.reference = .ok (mkLoadedMetric pkg (k, d)) := by
  obtain ⟨ddesc, dunit, dtags, dref⟩ := d
  cases dref <;>
    simp [Metric.deserialize, mkLoadedMetric, Metric.new, Name.new,
      Name.init_merge, metricArgComponents, packageArgComponents,
      specArgComponents, mergeComponents, initNewInfo, Name.has_metric,
      except_bind_ok]

/-- The definition-file load protocol, characterized: with a dot-free
package name and dot-free record keys, loading succeeds and produces
exactly one metric per record, in order, as built by `mkLoadedMetric`. -/
theorem loadMetricsYaml_ok (pkg : Str) (doc : List (Str × MetricDoc))
    (hp : '.' ∉ pkg) (hkeys : ∀ kv ∈ doc, '.' ∉ kv.1) :
    loadMetricsYaml pkg doc = .ok (doc.map (mkLoadedMetric pkg)) := by
  induction doc with
  | nil => rfl
  | cons kv t ih =>
    obtain ⟨k, d⟩ := kv
    rw [loadMetricsYaml, name_new_pkg_metric pkg k hp (hkeys (k, d) (by simp)),
      except_bind_ok, metric_deserialize_loaded pkg k d, except_bind_ok,
      ih (fun kv hkv => hkeys kv (by simp [hkv])), except_bind_ok]
    rfl

/-- Witness for C8 at `s = 'a.b'`. -/
theorem name_str_roundtrip_witness :
    1 ≤ ((lit "a.b").splitOn '.').length ∧
    ((lit "a.b").splitOn '.').length ≤ 3 ∧
    ∃ n, Name.new (some (.str (lit "a.b"))) none none = .ok n ∧
      n.str = lit "a.b" :=
  ⟨by decide, by decide, name_str_roundtrip (lit "a.b") (by decide) (by decide)⟩

/-- **C10.**  Every key the definition-file load protocol stores is the
package-qualified `Name(package=pkg, metric=record-key)`; because `Name`
equality is structural over the whole `(package, metric, spec)` triple, a
lookup with a bare undotted metric-name string raises `KeyError` even when
a metric with that metric component was loaded, while the dotted
`'pkg.key'` string — or the equally qualified `Name` — retrieves an
entry. -/
theorem metricset_lookup_qualified (pkg : Str) (doc : List (Str × MetricDoc))
    (ms : MetricSet) (hp : '.' ∉ pkg) (hkeys : ∀ kv ∈ doc, '.' ∉ kv.1)
    (hload : MetricSet.load_single_package pkg doc = .ok ms) :
    (∀ nm metric, (nm, metric) ∈ ms.metrics →
      nm.package = some pkg ∧ nm.spec = none ∧ ∃ r ∈ doc, nm.metric = some r.1) ∧
    (∀ k : Str, '.' ∉ k → ms.getitem (.str k) = .error .keyError) ∧
    (∀ kv ∈ doc, ∃ metric,
      ms.getitem (.str (pkg ++ '.' :: kv.1)) = .ok metric) ∧
    (∀ kv ∈ doc, ∃ metric,
      ms.getitem (.name ⟨some pkg, some kv.1, none⟩) = .ok metric) := by
  rw [MetricSet.load_single_package, loadMetricsYaml_ok pkg doc hp hkeys,
    except_bind_ok] at hload
  injection hload with hms
  subst hms
  have hkeyP : ∀ kv ∈ (MetricSet.new (doc.map (mkLoadedMetric pkg))).metrics,
      kv.1.package = some pkg ∧ kv.1.spec = none ∧
        ∃ r ∈ doc, kv.1.metric = some r.1 := by
    have hgen := foldl_updateAssoc_keys_pred
      (fun nm : Name => nm.package = some pkg ∧ nm.spec = none ∧
        ∃ r ∈ doc, nm.metric = some r.1)
      Metric.name id (doc.map (mkLoadedMetric pkg)) []
      (fun kv hkv => absurd hkv (List.not_mem_nil kv))
      (fun m hm => by
        obtain ⟨r, hr, rfl⟩ := List.mem_map.mp hm
        exact ⟨rfl, rfl, r, hr, rfl⟩)
    exact hgen
  have hnoneK : ∀ k : Str,
      lookupAssoc (MetricSet.new (doc.map (mkLoadedMetric pkg))).metrics
        (⟨none, some k, none⟩ : Name) = none := by
    intro k
    apply lookupAssoc_eq_none
    intro kv hkv hceq
    have hpk := (hkeyP kv hkv).1
    rw [hceq] at hpk
    simp at hpk
  have hsomeT : ∀ kv ∈ doc, ∃ metric,
      lookupAssoc (MetricSet.new (doc.map (mkLoadedMetric pkg))).metrics
        (⟨some pkg, some kv.1, none⟩ : Name) = some metric := by
    intro kv hkv
    have hiss := foldl_updateAssoc_lookup_isSome Metric.name id
      (doc.map (mkLoadedMetric pkg)) [] (⟨some pkg, some kv.1, none⟩ : Name)
      (Or.inr ⟨mkLoadedMetric pkg kv, List.mem_map_of_mem _ hkv, rfl⟩)
    exact Option.isSome_iff_exists.mp hiss
  refine ⟨fun nm metric hmem => hkeyP (nm, metric) hmem, fun k hk => ?_,
    fun kv hkv => ?_, fun kv hkv => ?_⟩
  · simp only [MetricSet.getitem]
    rw [name_new_bare_metric k hk, except_bind_ok, hnoneK k]
  · obtain ⟨metric, hm⟩ := hsomeT kv hkv
    refine ⟨metric, ?_⟩
    simp only [MetricSet.getitem]
    rw [name_new_dotted_metric pkg kv.1 hp (hkeys kv hkv), except_bind_ok, hm]
  · obtain ⟨metric, hm⟩ := hsomeT kv hkv
    refine ⟨metric, ?_⟩
    simp only [MetricSet.getitem]
    rw [except_bind_ok, hm]

/-- Witness for C10: loading the one-record file `{'m': ...}` as package
`p`, the bare string `'m'` misses while `'p.m'` hits. -/
theorem metricset_lookup_qualified_witness :
    MetricSet.getitem exLoadedMS (.str (lit "m")) = .error .keyError ∧
    (∃ metric,
      MetricSet.getitem exLoadedMS (.str (lit "p" ++ '.' :: lit "m")) =
        .ok metric) :=
  ⟨(metricset_lookup_qualified (lit "p") exDoc exLoadedMS (by decide) (by decide)
      (by decide)).2.1 (lit "m") (by decide),
   (metricset_lookup_qualified (lit "p") exDoc exLoadedMS (by decide) (by decide)
      (by decide)).2.2.1 (lit "m", ⟨lit "d", lit "mag", none, none⟩) (by decide)⟩

/-! ### Component-merge helper lemmas (for the consistency property) -/

/-- An agreeing component merge succeeds with the joined value. -/
theorem initNewInfo_agrees (cur new : Option Str) (h : optAgrees cur new = true) :
    initNewInfo cur new = .ok (new.or cur) := by
  cases new <;> cases cur <;> simp_all [initNewInfo, optAgrees, Option.or]

/-- A disagreeing component merge raises the conflict error. -/
theorem initNewInfo_conflict (cur new : Option Str) (h : optAgrees cur new = false) :
    initNewInfo cur new = .error .nameConflict := by
  cases new <;> cases cur <;> simp_all [initNewInfo, optAgrees]
  exact fun hh => h hh.symm

/-- Merging a componentwise agreeing contribution succeeds and joins
componentwise (contributed values win; they equal the current ones where
both are set). -/
theorem mergeComponents_agrees (st : Name) (c : Option Str × Option Str × Option Str)
    (h1 : optAgrees st.package c.1 = true) (h2 : optAgrees st.metric c.2.1 = true)
    (h3 : optAgrees st.spec c.2.2 = true) :
    mergeComponents st c =
      .ok ⟨c.1.or st.package, c.2.1.or st.metric, c.2.2.or st.spec⟩ := by
  rw [mergeComponents, initNewInfo_agrees _ _ h1, except_bind_ok,
    initNewInfo_agrees _ _ h2, except_bind_ok,
    initNewInfo_agrees _ _ h3, except_bind_ok]

/-- Merging a contribution that disagrees on some component raises the
conflict error (whichever component conflicts first). -/
theorem mergeComponents_conflict (st : Name) (c : Option Str × Option Str × Option Str)
    (h : optAgrees st.package c.1 = false ∨ optAgrees st.metric c.2.1 = false ∨
      optAgrees st.spec c.2.2 = false) :
    mergeComponents st c = .error .nameConflict := by
  by_cases hp : optAgrees st.package c.1 = false
  · rw [mergeComponents, initNewInfo_conflict _ _ hp, except_bind_error]
  · have hp' : optAgrees st.package c.1 = true := by
      cases hv : optAgrees st.package c.1
      · exact absurd hv hp
      · rfl
    by_cases hm : optAgrees st.metric c.2.1 = false
    · rw [mergeComponents, initNewInfo_agrees _ _ hp', except_bind_ok,
        initNewInfo_conflict _ _ hm, except_bind_error]
    · have hm' : optAgrees st.metric c.2.1 = true := by
        cases hv : optAgrees st.metric c.2.1
        · exact absurd hv hm
        · rfl
      rcases h with h | h | h
      · exact absurd h hp
      · exact absurd h hm
      · rw [mergeComponents, initNewInfo_agrees _ _ hp', except_bind_ok,
          initNewInfo_agrees _ _ hm', except_bind_ok,
          initNewInfo_conflict _ _ h, except_bind_error]

/-- Joining two values that both agree with a third still agrees with it. -/
theorem optAgrees_join_true (a b c : Option Str) (hac : optAgrees a c = true)
    (hbc : optAgrees b c = true) : optAgrees (b.or a) c = true := by
  cases a <;> cases b <;> cases c <;> simp_all [optAgrees, Option.or]

/-- Joining two mutually agreeing values, one of which disagrees with a
third, disagrees with it. -/
theorem optAgrees_join_false (a b c : Option Str) (hab : optAgrees a b = true)
    (h : optAgrees a c = false ∨ optAgrees b c = false) :
    optAgrees (b.or a) c = false := by
  cases a <;> cases b <;> cases c <;> simp_all [optAgrees, Option.or]

/-- Extract the three conjuncts of a true triple agreement. -/
theorem agree3_true_elim (c d : Option Str × Option Str × Option Str)
    (h : agree3 c d = true) :
    optAgrees c.1 d.1 = true ∧ optAgrees c.2.1 d.2.1 = true ∧
      optAgrees c.2.2 d.2.2 = true := by
  simpa [agree3, Bool.and_eq_true, and_assoc] using h

/-- A false triple agreement gives a disagreeing component. -/
theorem agree3_false_elim (c d : Option Str × Option Str × Option Str)
    (h : agree3 c d = false) :
    optAgrees c.1 d.1 = false ∨ optAgrees c.2.1 d.2.1 = false ∨
      optAgrees c.2.2 d.2.2 = false := by
  cases h1 : optAgrees c.1 d.1 with
  | false => exact Or.inl rfl
  | true =>
    cases h2 : optAgrees c.2.1 d.2.1 with
    | false => exact Or.inr (Or.inl rfl)
    | true =>
      refine Or.inr (Or.inr ?_)
      unfold agree3 at h
      rw [h1, h2] at h
      simpa using h

/-- The triple a well-formed `package` argument contributes never has the
metric gap. -/
theorem packageArgComponents_wf (package : Option NameArg)
    (cp : Option Str × Option Str × Option Str)
    (hp : packageArgComponents package = .ok cp)
    (hw : argWellFormed package = true) :
    (!(cp.1.isSome && !cp.2.1.isSome && cp.2.2.isSome)) = true := by
  cases package with
  | none =>
    simp only [packageArgComponents] at hp
    injection hp with h
    subst h
    rfl
  | some a =>
    cases a with
    | name n =>
      simp only [packageArgComponents] at hp
      injection hp with h
      subst h
      simpa [argWellFormed, Name.wellFormed] using hw
    | str s =>
      simp only [packageArgComponents, Name.parse_fqn_string] at hp
      split at hp
      · injection hp with h; subst h; rfl
      · injection hp with h; subst h; rfl
      · injection hp with h; subst h; rfl
      · simp at hp

/-- `_parse_metric_name_string` always returns a set metric component. -/
theorem parse_metric_name_string_isSome (s : Str) (p m : Option Str)
    (h : Name.parse_metric_name_string s = .ok (p, m)) : m.isSome = true := by
  simp only [Name.parse_metric_name_string] at h
  split at h
  · injection h with h'
    cases h'
    rfl
  · injection h with h'
    cases h'
    rfl
  · simp at h

/-- The triple a `metric` argument contributes either sets the metric or is
empty. -/
theorem metricArgComponents_shape (metric : Option NameArg)
    (cm : Option Str × Option Str × Option Str)
    (hm : metricArgComponents metric = .ok cm) :
    cm.2.1.isSome = true ∨ cm = (none, none, none) := by
  cases metric with
  | none =>
    simp only [metricArgComponents] at hm
    injection hm with h
    subst h
    exact Or.inr rfl
  | some a =>
    cases a with
    | name n =>
      simp only [metricArgComponents] at hm
      split at hm
      · simp at hm
      · injection hm with h
        subst h
        rename_i hmet
        left
        simpa [Name.has_metric, Option.isSome_iff_ne_none] using hmet
    | str s =>
      simp only [metricArgComponents] at hm
      split at hm
      · rename_i p m heq
        injection hm with h
        subst h
        exact Or.inl (parse_metric_name_string_isSome s p m heq)
      · simp at hm

/-- The triple a well-formed `spec` argument contributes is empty, or sets
the spec and has no metric gap. -/
theorem specArgComponents_shape (spec : Option NameArg)
    (cs : Option Str × Option Str × Option Str)
    (hs : specArgComponents spec = .ok cs)
    (hw : argWellFormed spec = true) :
    cs = (none, none, none) ∨
      (cs.2.2.isSome = true ∧
        (!(cs.1.isSome && !cs.2.1.isSome && cs.2.2.isSome)) = true) := by
  cases spec with
  | none =>
    simp only [specArgComponents] at hs
    injection hs with h
    subst h
    exact Or.inl rfl
  | some a =>
    cases a with
    | name n =>
      simp only [specArgComponents] at hs
      split at hs
      · simp at hs
      · injection hs with h
        subst h
        rename_i hsp
        refine Or.inr ⟨?_, ?_⟩
        · simpa [Name.has_spec, Option.isSome_iff_ne_none] using hsp
        · simpa [argWellFormed, Name.wellFormed] using hw
    | str s =>
      simp only [specArgComponents, Name.parse_spec_name_string] at hs
      split at hs
      · injection hs with h; subst h; exact Or.inr ⟨rfl, rfl⟩
      · injection hs with h; subst h; exact Or.inr ⟨rfl, rfl⟩
      · injection hs with h; subst h; exact Or.inr ⟨rfl, rfl⟩
      · simp at hs

/-- The merged state of three contributions with an overlap and the
structural facts above never has the metric gap. -/
theorem merged_no_gap (cp cm cs : Option Str × Option Str × Option Str)
    (hcp : (!(cp.1.isSome && !cp.2.1.isSome && cp.2.2.isSome)) = true)
    (hcm : cm.2.1.isSome = true ∨ cm = (none, none, none))
    (hcs : cs = (none, none, none) ∨
      (cs.2.2.isSome = true ∧
        (!(cs.1.isSome && !cs.2.1.isSome && cs.2.2.isSome)) = true))
    (hov : (overlaps cp cm || overlaps cp cs || overlaps cm cs) = true) :
    ((cs.1.or (cm.1.or cp.1)).isSome &&
      (cs.2.2.or (cm.2.2.or cp.2.2)).isSome &&
      !(cs.2.1.or (cm.2.1.or cp.2.1)).isSome) = false := by
  obtain ⟨cp1, cpm, cps⟩ := cp
  obtain ⟨cm1, cmm, cms⟩ := cm
  obtain ⟨cs1, csm, css⟩ := cs
  cases cp1 <;> cases cpm <;> cases cps <;> cases cm1 <;> cases cmm <;>
    cases cms <;> cases cs1 <;> cases csm <;> cases css <;>
    simp_all [overlaps, Option.or]

/-- **C5.**  When the constructor arguments' contributed components (each
argument parsed/validated successfully, and any `Name` argument itself
well formed) pairwise agree and at least one component is supplied by two
arguments, construction succeeds; when two arguments supply different
values for a common component, construction raises the conflict error
(`TypeError('You provided a conflicting ...')`, the spec's
`NameConflict`). -/
theorem name_merge_consistency (package metric spec : Option NameArg)
    (cp cm cs : Option Str × Option Str × Option Str)
    (hp : packageArgComponents package = .ok cp)
    (hm : metricArgComponents metric = .ok cm)
    (hs : specArgComponents spec = .ok cs)
    (hwp : argWellFormed package = true) (hws : argWellFormed spec = true) :
    ((agree3 cp cm && agree3 cp cs && agree3 cm cs) = true →
      (overlaps cp cm || overlaps cp cs || overlaps cm cs) = true →
      ∃ n, Name.new package metric spec = .ok n) ∧
    ((agree3 cp cm && agree3 cp cs && agree3 cm cs) = false →
      Name.new package metric spec = .error .nameConflict) := by
  constructor
  · intro hagree hov
    obtain ⟨h12, h13, h23⟩ : agree3 cp cm = true ∧ agree3 cp cs = true ∧
        agree3 cm cs = true := by
      simpa [Bool.and_eq_true, and_assoc] using hagree
    obtain ⟨a1, a2, a3⟩ := agree3_true_elim cp cm h12
    obtain ⟨b1, b2, b3⟩ := agree3_true_elim cp cs h13
    obtain ⟨c1, c2, c3⟩ := agree3_true_elim cm cs h23
    have hm2 : mergeComponents ⟨cp.1, cp.2.1, cp.2.2⟩ cm =
        .ok ⟨cm.1.or cp.1, cm.2.1.or cp.2.1, cm.2.2.or cp.2.2⟩ :=
      mergeComponents_agrees _ _ a1 a2 a3
    have hm3 : mergeComponents
        ⟨cm.1.or cp.1, cm.2.1.or cp.2.1, cm.2.2.or cp.2.2⟩ cs =
        .ok ⟨cs.1.or (cm.1.or cp.1), cs.2.1.or (cm.2.1.or cp.2.1),
          cs.2.2.or (cm.2.2.or cp.2.2)⟩ :=
      mergeComponents_agrees _ _ (optAgrees_join_true _ _ _ b1 c1)
        (optAgrees_join_true _ _ _ b2 c2) (optAgrees_join_true _ _ _ b3 c3)
    have hgap := merged_no_gap cp cm cs
      (packageArgComponents_wf package cp hp hwp)
      (metricArgComponents_shape metric cm hm)
      (specArgComponents_shape spec cs hs hws) hov
    refine ⟨⟨cs.1.or (cm.1.or cp.1), cs.2.1.or (cm.2.1.or cp.2.1),
      cs.2.2.or (cm.2.2.or cp.2.2)⟩, ?_⟩
    rw [Name.new, Name.init_merge, hp, except_bind_ok, hm, except_bind_ok,
      hm2, except_bind_ok, hs, except_bind_ok, hm3, except_bind_ok,
      except_bind_ok]
    dsimp only
    rw [hgap]
    simp
  · intro hdis
    by_cases h12 : agree3 cp cm = false
    · have hc := mergeComponents_conflict ⟨cp.1, cp.2.1, cp.2.2⟩ cm
        (agree3_false_elim cp cm h12)
      rw [Name.new, Name.init_merge, hp, except_bind_ok, hm, except_bind_ok,
        hc, except_bind_error, except_bind_error]
    · have h12' : agree3 cp cm = true := by
        cases hv : agree3 cp cm
        · exact absurd hv h12
        · rfl
      obtain ⟨a1, a2, a3⟩ := agree3_true_elim cp cm h12'
      have hdis' : agree3 cp cs = false ∨ agree3 cm cs = false := by
        rw [h12'] at hdis
        by_cases h13 : agree3 cp cs = false
        · exact Or.inl h13
        · have h13' : agree3 cp cs = true := by
            cases hv : agree3 cp cs
            · exact absurd hv h13
            · rfl
          rw [h13'] at hdis
          exact Or.inr (by simpa using hdis)
      have hfield : optAgrees (cm.1.or cp.1) cs.1 = false ∨
          optAgrees (cm.2.1.or cp.2.1) cs.2.1 = false ∨
          optAgrees (cm.2.2.or cp.2.2) cs.2.2 = false := by
        rcases hdis' with h | h
        · rcases agree3_false_elim cp cs h with hf | hf | hf
          · exact Or.inl (optAgrees_join_false _ _ _ a1 (Or.inl hf))
          · exact Or.inr (Or.inl (optAgrees_join_false _ _ _ a2 (Or.inl hf)))
          · exact Or.inr (Or.inr (optAgrees_join_false _ _ _ a3 (Or.inl hf)))
        · rcases agree3_false_elim cm cs h with hf | hf | hf
          · exact Or.inl (optAgrees_join_false _ _ _ a1 (Or.inr hf))
          · exact Or.inr (Or.inl (optAgrees_join_false _ _ _ a2 (Or.inr hf)))
          · exact Or.inr (Or.inr (optAgrees_join_false _ _ _ a3 (Or.inr hf)))
      have hm2 : mergeComponents ⟨cp.1, cp.2.1, cp.2.2⟩ cm =
          .ok ⟨cm.1.or cp.1, cm.2.1.or cp.2.1, cm.2.2.or cp.2.2⟩ :=
        mergeComponents_agrees _ _ a1 a2 a3
      have hc : mergeComponents
          ⟨cm.1.or cp.1, cm.2.1.or cp.2.1, cm.2.2.or cp.2.2⟩ cs =
          .error .nameConflict :=
        mergeComponents_conflict _ _ hfield
      rw [Name.new, Name.init_merge, hp, except_bind_ok, hm, except_bind_ok,
        hm2, except_bind_ok, hs, except_bind_ok, hc, except_bind_error,
        except_bind_error]

/-- Witness for C5: `Name(package='a.b', metric='b')` succeeds (the metric
component is supplied twice, consistently); `Name(package='a.b',
metric='x')` raises the conflict error. -/
theorem name_merge_consistency_witness :
    (∃ n, Name.new (some (.str (lit "a.b"))) (some (.str (lit "b"))) none =
      .ok n) ∧
    Name.new (some (.str (lit "a.b"))) (some (.str (lit "x"))) none =
      .error .nameConflict :=
  ⟨(name_merge_consistency (some (.str (lit "a.b"))) (some (.str (lit "b"))) none
      (some (lit "a"), some (lit "b"), none) (none, some (lit "b"), none)
      (none, none, none) (by decide) (by decide) (by decide) (by decide)
      (by decide)).1 (by decide) (by decide),
   (name_merge_consistency (some (.str (lit "a.b"))) (some (.str (lit "x"))) none
      (some (lit "a"), some (lit "b"), none) (none, some (lit "x"), none)
      (none, none, none) (by decide) (by decide) (by decide) (by decide)
      (by decide)).2 (by decide)⟩

end ValidateBase
